import Mathlib

/-!
Verification of the Bankless Onchain MCP server (tool dispatch and
error-normalization layer).

The embedding models, from the TypeScript sources:
  - the JSON value universe exchanged with the remote API (`Json`),
  - JavaScript string coercions used by the code (template-literal
    interpolation, `Array.prototype.toString`, `BigInt(string)`),
  - the Domain Error taxonomy of `src/common/banklessErrors.ts`,
  - the nine operation handlers of `src/operations/bankless.ts` and
    `src/operations/tokens.ts` (one authenticated HTTP call each, with the
    shared status-code classification of failures),
  - the tool dispatcher of `src/index.ts` (catalog listing, argument
    validation against the zod schemas, and error formatting).

HTTP is modelled by an explicit transport oracle `Request → HttpOutcome`;
each handler returns its outcome together with the list of requests it
issued, so "zero remote calls" is the statement that this list is empty.
Wall-clock time is a `Nat` parameter counting milliseconds since the epoch
(the resolution of a JavaScript `Date`).
-/

/-- A JSON value, as produced by axios response parsing and consumed by the
request serializer. -/
inductive Json where
  | null
  | bool (b : Bool)
  | num (n : Int)
  | str (s : String)
  | arr (elems : List Json)
  | obj (fields : List (String × Json))

/-- Lookup of a field of a JSON object (optional chaining `j?.k`): `none`
both when `j` is not an object and when the key is absent. -/
def Json.getField : Json → String → Option Json
  | .obj kvs, k => kvs.lookup k
  | _, _ => none

/-- JavaScript truthiness of a parsed JSON value. -/
def jsTruthy : Json → Bool
  | .null => false
  | .bool b => b
  | .num n => n != 0
  | .str s => s != ""
  | .arr _ => true
  | .obj _ => true

mutual
/-- JavaScript string coercion of a parsed JSON value, as performed by a
template literal: strings are unchanged, arrays join their elements with a
comma (null elements become the empty string), plain objects render as
"[object Object]". -/
def jsTemplateString : Json → String
  | .null => "null"
  | .bool b => cond b "true" "false"
  | .num n => toString n
  | .str s => s
  | .arr xs => jsJoinElems xs
  | .obj _ => "[object Object]"
/-- The `Array.prototype.join(",")` underlying array-to-string coercion. -/
def jsJoinElems : List Json → String
  | [] => ""
  | [x] => jsElemString x
  | x :: y :: rest => jsElemString x ++ "," ++ jsJoinElems (y :: rest)
/-- One array element under `join`: null renders as the empty string, any
other value as its template-literal coercion. -/
def jsElemString : Json → String
  | .null => ""
  | .bool b => cond b "true" "false"
  | .num n => toString n
  | .str s => s
  | .arr xs => jsJoinElems xs
  | .obj _ => "[object Object]"
end

/-- JavaScript `v.toString()` on a parsed JSON value: throws (modelled as
`none`) on `null`, otherwise coincides with template-literal coercion. -/
def jsToStringOpt : Json → Option String
  | .null => none
  | j => some (jsTemplateString j)

/-- Escape of a single character inside a JSON string literal, as
JSON.stringify performs it. -/
def jsonEscapeChar (c : Char) : String :=
  if c = '"' then "\\\""
  else if c = '\\' then "\\\\"
  else if c = '\n' then "\\n"
  else if c = '\r' then "\\r"
  else if c = '\t' then "\\t"
  else if c = '\x08' then "\\b"
  else if c = '\x0c' then "\\f"
  else if c.toNat < 32 then
    "\\u00" ++ (if c.toNat / 16 = 0 then "0" else "1") ++
      (let d := c.toNat % 16
       if d < 10 then toString d
       else String.singleton (Char.ofNat (87 + d)))
  else String.singleton c

/-- A JSON string literal with its quotes, as JSON.stringify renders it. -/
def jsonQuote (s : String) : String :=
  "\"" ++ String.join (s.toList.map jsonEscapeChar) ++ "\""

mutual
/-- Compact `JSON.stringify` of a JSON value. -/
def Json.stringify : Json → String
  | .null => "null"
  | .bool b => cond b "true" "false"
  | .num n => toString n
  | .str s => jsonQuote s
  | .arr xs => "[" ++ Json.stringifyArr xs ++ "]"
  | .obj kvs => "\x7b" ++ Json.stringifyObj kvs ++ "\x7d"
/-- Comma-separated serialization of array elements. -/
def Json.stringifyArr : List Json → String
  | [] => ""
  | [x] => Json.stringify x
  | x :: y :: rest => Json.stringify x ++ "," ++ Json.stringifyArr (y :: rest)
/-- Comma-separated serialization of object fields. -/
def Json.stringifyObj : List (String × Json) → String
  | [] => ""
  | [(k, v)] => jsonQuote k ++ ":" ++ Json.stringify v
  | (k, v) :: y :: rest =>
      jsonQuote k ++ ":" ++ Json.stringify v ++ "," ++ Json.stringifyObj (y :: rest)
end

/-- Two-space indentation used by `JSON.stringify(result, null, 2)`. -/
def jsonPad (depth : Nat) : String := String.join (List.replicate depth "  ")

mutual
/-- Pretty `JSON.stringify(v, null, 2)` at a given nesting depth. -/
def Json.render (depth : Nat) : Json → String
  | .null => "null"
  | .bool b => cond b "true" "false"
  | .num n => toString n
  | .str s => jsonQuote s
  | .arr [] => "[]"
  | .arr (x :: xs) =>
      "[\n" ++ Json.renderArr depth (x :: xs) ++ "\n" ++ jsonPad depth ++ "]"
  | .obj [] => "\x7b\x7d"
  | .obj (kv :: kvs) =>
      "\x7b\n" ++ Json.renderObj depth (kv :: kvs) ++ "\n" ++ jsonPad depth ++ "\x7d"
/-- Indented array elements, separated by a comma and a newline. -/
def Json.renderArr (depth : Nat) : List Json → String
  | [] => ""
  | [x] => jsonPad (depth + 1) ++ Json.render (depth + 1) x
  | x :: y :: rest =>
      jsonPad (depth + 1) ++ Json.render (depth + 1) x ++ ",\n" ++
        Json.renderArr depth (y :: rest)
/-- Indented object fields, separated by a comma and a newline. -/
def Json.renderObj (depth : Nat) : List (String × Json) → String
  | [] => ""
  | [(k, v)] => jsonPad (depth + 1) ++ jsonQuote k ++ ": " ++ Json.render (depth + 1) v
  | (k, v) :: y :: rest =>
      jsonPad (depth + 1) ++ jsonQuote k ++ ": " ++ Json.render (depth + 1) v ++
        ",\n" ++ Json.renderObj depth (y :: rest)
end

/-- Top-level `JSON.stringify(v, null, 2)`. -/
def Json.renderIndent2 (j : Json) : String := Json.render 0 j

/-- Modelled from the spec: the closed Domain Error taxonomy of
`src/common/banklessErrors.ts` (the file itself is not among the sources;
its constructor arguments are visible at every throw site, and the spec
fixes the closed set of kinds and their kind-specific fields: an optional
structured detail for validation errors and a reset timestamp for
rate-limit errors). `resetAt` is in milliseconds since the epoch. -/
inductive DomainError where
  | authentication (message : String)
  | validation (message : String) (response : Option Json)
  | resourceNotFound (message : String)
  | rateLimit (message : String) (resetAt : Nat)

/-- The message carried by a Domain Error. -/
def DomainError.message : DomainError → String
  | .authentication m => m
  | .validation m _ => m
  | .resourceNotFound m => m
  | .rateLimit m _ => m

/-- A thrown JavaScript error: either one of the Domain Error classes or a
plain `Error` carrying only its message. -/
inductive Thrown where
  | domain (e : DomainError)
  | plain (message : String)

/-- Modelled from the spec: the `isBanklessError` predicate of
`src/common/banklessErrors.ts` distinguishing Domain Errors from arbitrary
failures (an `instanceof BanklessError` check in the source). -/
def isBanklessError : Thrown → Bool
  | .domain _ => true
  | .plain _ => false

/-- HTTP method of an outbound request. -/
inductive HttpMethod where
  | get
  | post
deriving DecidableEq

/-- One outbound HTTP request as the handlers build it: method, full URL,
JSON body (absent for GET) and headers. -/
structure Request where
  method : HttpMethod
  url : String
  payload : Option Json
  headers : List (String × String)

/-- What awaiting the axios call can yield: a 2xx response with parsed
body; an axios error carrying a response (status, parsed body, and the
error message axios attaches); an axios error with no response (network
error, timeout); or a non-axios exception thrown while issuing the call. -/
inductive HttpOutcome where
  | success (data : Json)
  | httpError (status : Nat) (data : Json) (message : String)
  | transportError (message : String)
  | nonAxios (message : String)

/-- A transport oracle answering every request with a fixed outcome; used
to instantiate the handlers at concrete inputs. -/
def constTransport (o : HttpOutcome) : Request → HttpOutcome := fun _ => o

/-- The days-to-civil-date conversion (Gregorian calendar) underlying
`Date.prototype.toISOString`, for days since 1970-01-01. Returns
(year, month, day). -/
def civilFromDays (days : Nat) : Nat × Nat × Nat :=
  let z := days + 719468
  let era := z / 146097
  let doe := z % 146097
  let yoe := (doe - doe / 1460 + doe / 36524 - doe / 146096) / 365
  let y := yoe + era * 400
  let doy := doe - (365 * yoe + yoe / 4 - yoe / 100)
  let mp := (5 * doy + 2) / 153
  let d := doy - (153 * mp + 2) / 5 + 1
  let m := if mp < 10 then mp + 3 else mp - 9
  (if m ≤ 2 then y + 1 else y, m, d)

/-- Left-pad a number to two digits. -/
def pad2 (n : Nat) : String := if n < 10 then "0" ++ toString n else toString n

/-- Left-pad a number to three digits. -/
def pad3 (n : Nat) : String :=
  if n < 10 then "00" ++ toString n
  else if n < 100 then "0" ++ toString n
  else toString n

/-- The fixed timestamp format of `Date.prototype.toISOString`
(YYYY-MM-DDTHH:MM:SS.sssZ) applied to milliseconds since the epoch. -/
def toISOString (ms : Nat) : String :=
  let days := ms / 86400000
  let rem := ms % 86400000
  let c := civilFromDays days
  toString c.1 ++ "-" ++ pad2 c.2.1 ++ "-" ++ pad2 c.2.2 ++
    "T" ++ pad2 (rem / 3600000) ++ ":" ++ pad2 (rem % 3600000 / 60000) ++
    ":" ++ pad2 (rem % 60000 / 1000) ++ "." ++ pad3 (ms % 1000) ++ "Z"

/-- The expression `error.response?.data?.message || error.message` shared
by every handler's catch block: the `message` field of the response body
when it exists and is truthy, interpolated to a string; otherwise the
axios error message. -/
def errorMessageOf (data : Json) (axiosMessage : String) : String :=
  match data.getField "message" with
  | some v => if jsTruthy v then jsTemplateString v else axiosMessage
  | none => axiosMessage

/-- The expression `error.response?.status || 'unknown'` as interpolated
into the generic error message (an HTTP status is a positive number, so
only a zero status would print as unknown). -/
def statusCodeStr (status : Nat) : String :=
  if status = 0 then "unknown" else toString status

/-- The status-code classification shared verbatim by every handler's
catch block for an axios error that carries a response. `notFound` is the
handler-specific 404 message built from the extracted error message;
`now` is the current time in milliseconds (429 sets the reset time to 60
seconds later). -/
def classifyAxiosError (notFound : String → String) (now : Nat)
    (status : Nat) (data : Json) (axiosMessage : String) : Thrown :=
  let em := errorMessageOf data axiosMessage
  if status = 401 ∨ status = 403 then
    .domain (.authentication ("Authentication Failed: " ++ em))
  else if status = 404 then
    .domain (.resourceNotFound (notFound em))
  else if status = 422 then
    .domain (.validation ("Validation Error: " ++ em) (some data))
  else if status = 429 then
    .domain (.rateLimit ("Rate Limit Exceeded: " ++ em) (now + 60000))
  else
    .plain ("Bankless API Error (" ++ statusCodeStr status ++ "): " ++ em)

/-- The whole try/catch surrounding one axios call, shared by every
handler: a 2xx response returns its body, an axios error with a response
is classified by status, an axios error without a response produces the
generic message with unknown status, and any other exception is wrapped
in the handler's fallback message. -/
def classifyOutcome (notFound : String → String) (fallbackMsg : String)
    (now : Nat) : HttpOutcome → Except Thrown Json
  | .success d => .ok d
  | .httpError s d m => .error (classifyAxiosError notFound now s d m)
  | .transportError m => .error (.plain ("Bankless API Error (unknown): " ++ m))
  | .nonAxios m => .error (.plain (fallbackMsg ++ m))

/-- Numeric value of a digit character under a given radix, accepting
decimal digits and both alphabet cases, as `BigInt(string)` does. -/
def radixDigitVal (radix : Nat) (c : Char) : Option Nat :=
  let v : Option Nat :=
    if c.isDigit then some (c.toNat - 48)
    else if 'a' ≤ c ∧ c ≤ 'z' then some (c.toNat - 87)
    else if 'A' ≤ c ∧ c ≤ 'Z' then some (c.toNat - 55)
    else none
  match v with
  | some d => if d < radix then some d else none
  | none => none

/-- Left-to-right positional accumulation of a nonempty digit sequence in
the given radix; any invalid character makes the whole parse fail. -/
def parseRadix (radix : Nat) (l : List Char) : Option Nat :=
  if l.isEmpty then none
  else
    l.foldl
      (fun acc c =>
        match acc, radixDigitVal radix c with
        | some n, some d => some (radix * n + d)
        | _, _ => none)
      (some 0)

/-- The ECMAScript `StringToBigInt` conversion applied by
`BigInt(response.data.toString())`: trim whitespace; the empty remainder
is zero; a 0x/0o/0b prefix selects a non-decimal radix (no sign allowed);
otherwise an optional sign followed by decimal digits; anything else
throws (modelled as `none`). -/
def jsStringToBigInt (s : String) : Option Int :=
  let l := ((s.toList.dropWhile Char.isWhitespace).reverse.dropWhile
    Char.isWhitespace).reverse
  match l with
  | [] => some 0
  | '0' :: x :: rest =>
      if x = 'x' ∨ x = 'X' then (parseRadix 16 rest).map Int.ofNat
      else if x = 'o' ∨ x = 'O' then (parseRadix 8 rest).map Int.ofNat
      else if x = 'b' ∨ x = 'B' then (parseRadix 2 rest).map Int.ofNat
      else (parseRadix 10 l).map Int.ofNat
  | '+' :: rest => (parseRadix 10 rest).map Int.ofNat
  | '-' :: rest => (parseRadix 10 rest).map (fun n => -(n : Int))
  | _ => (parseRadix 10 l).map Int.ofNat

/-- The conversion `BigInt(response.data.toString())` applied to a parsed
response body: `toString` throws on null, then `BigInt` may throw on a
malformed string. -/
def bigIntOfData (d : Json) : Option Int :=
  (jsToStringOpt d).bind jsStringToBigInt

/-- The result of running one handler: the value it returns or the error
it throws, together with the outbound requests it issued. -/
abbrev OpResult (α : Type) := Except Thrown α × List Request

/-- The authentication failure thrown when `process.env.BANKLESS_API_TOKEN`
is not set, before any request is issued. -/
def missingTokenFailure {α : Type} : OpResult α :=
  (.error (.domain (.authentication
    "BANKLESS_API_TOKEN environment variable is not set")), [])

namespace Bankless

/-- The fixed remote base URL of `src/operations/bankless.ts`. -/
def BASE_URL : String := "https://api.bankless.com/"

/-- The headers attached to every request of `src/operations/bankless.ts`. -/
def apiHeaders (token : String) : List (String × String) :=
  [("Content-Type", "application/json"), ("X-BANKLESS-TOKEN", token)]

/-- The handler `readContractState` of `src/operations/bankless.ts`:
requires the token, then POSTs `{contract, method, inputs, outputs}` to
`BASE_URL + "/internal/chains/" + network + "/contract/read"` and returns
the response body, classifying failures by status. -/
def readContractState (tokenEnv : Option String)
    (transport : Request → HttpOutcome) (now : Nat)
    (network contract method : String) (inputs outputs : List Json) :
    OpResult Json :=
  match tokenEnv with
  | none => missingTokenFailure
  | some token =>
    let req : Request :=
      { method := .post
        url := BASE_URL ++ "/internal/chains/" ++ network ++ "/contract/read"
        payload := some (.obj
          [("contract", .str contract), ("method", .str method),
           ("inputs", .arr inputs), ("outputs", .arr outputs)])
        headers := apiHeaders token }
    (classifyOutcome (fun em => "Not Found: " ++ em)
      "Failed to read contract state: " now (transport req), [req])

/-- The handler `getProxy` of `src/operations/bankless.ts`: GET
`BASE_URL + "/internal/chains/" + network + "/contract/" + contract +
"/find-proxy"`. -/
def getProxy (tokenEnv : Option String) (transport : Request → HttpOutcome)
    (now : Nat) (network contract : String) : OpResult Json :=
  match tokenEnv with
  | none => missingTokenFailure
  | some token =>
    let req : Request :=
      { method := .get
        url := BASE_URL ++ "/internal/chains/" ++ network ++ "/contract/" ++
          contract ++ "/find-proxy"
        payload := none
        headers := apiHeaders token }
    (classifyOutcome (fun em => "Not Found: " ++ em)
      "Failed to get proxy information: " now (transport req), [req])

/-- The handler `getEvents` of `src/operations/bankless.ts`: POSTs
`{addresses, topic, optionalTopics}` to `BASE_URL + "/internal/chains/" +
network + "/events/logs"`. The `optionalTopics` parameter defaults to the
empty list when the caller passes undefined, and `optionalTopics || []`
additionally maps null to the empty list, so an absent argument is encoded
as `none` and serializes to the empty array. -/
def getEvents (tokenEnv : Option String) (transport : Request → HttpOutcome)
    (now : Nat) (network : String) (addresses : List String) (topic : String)
    (optionalTopics : Option (List (Option String))) : OpResult Json :=
  match tokenEnv with
  | none => missingTokenFailure
  | some token =>
    let req : Request :=
      { method := .post
        url := BASE_URL ++ "/internal/chains/" ++ network ++ "/events/logs"
        payload := some (.obj
          [("addresses", .arr (addresses.map Json.str)),
           ("topic", .str topic),
           ("optionalTopics", .arr ((optionalTopics.getD []).map
             (fun t => match t with
               | some s => Json.str s
               | none => Json.null)))])
        headers := apiHeaders token }
    (classifyOutcome (fun em => "Not Found: " ++ em)
      "Failed to fetch event logs: " now (transport req), [req])

/-- The handler `buildEventTopic` of `src/operations/bankless.ts`: POSTs
`{name, arguments}` to `BASE_URL + "/internal/chains/" + network +
"/contract/build-event-topic"`. -/
def buildEventTopic (tokenEnv : Option String)
    (transport : Request → HttpOutcome) (now : Nat)
    (network name : String) (arguments_ : List Json) : OpResult Json :=
  match tokenEnv with
  | none => missingTokenFailure
  | some token =>
    let req : Request :=
      { method := .post
        url := BASE_URL ++ "/internal/chains/" ++ network ++
          "/contract/build-event-topic"
        payload := some (.obj
          [("name", .str name), ("arguments", .arr arguments_)])
        headers := apiHeaders token }
    (classifyOutcome (fun em => "Not Found: " ++ em)
      "Failed to build event topic: " now (transport req), [req])

/-- The handler `getAbi` of `src/operations/bankless.ts`: GET
`BASE_URL + "/internal/chains/" + network + "/get_abi/" + contract`. -/
def getAbi (tokenEnv : Option String) (transport : Request → HttpOutcome)
    (now : Nat) (network contract : String) : OpResult Json :=
  match tokenEnv with
  | none => missingTokenFailure
  | some token =>
    let req : Request :=
      { method := .get
        url := BASE_URL ++ "/internal/chains/" ++ network ++ "/get_abi/" ++ contract
        payload := none
        headers := apiHeaders token }
    (classifyOutcome (fun em => "Not Found: " ++ em)
      "Failed to get contract ABI: " now (transport req), [req])

/-- The handler `getSource` of `src/operations/bankless.ts`: GET
`BASE_URL + "/internal/chains/" + network + "/get_source/" + contract`. -/
def getSource (tokenEnv : Option String) (transport : Request → HttpOutcome)
    (now : Nat) (network contract : String) : OpResult Json :=
  match tokenEnv with
  | none => missingTokenFailure
  | some token =>
    let req : Request :=
      { method := .get
        url := BASE_URL ++ "/internal/chains/" ++ network ++ "/get_source/" ++ contract
        payload := none
        headers := apiHeaders token }
    (classifyOutcome (fun em => "Not Found: " ++ em)
      "Failed to get contract source: " now (transport req), [req])

/-- A field of the transaction-history payload whose argument may be
undefined (omitted from the body), null, or a string. -/
def optField (k : String) : Option (Option String) → List (String × Json)
  | none => []
  | some none => [(k, Json.null)]
  | some (some s) => [(k, Json.str s)]

/-- The handler `getTransactionHistory` of `src/operations/bankless.ts`:
POSTs `{user, contract, methodId, startBlock, includeData}` to
`BASE_URL + "/internal/chains/" + network + "/transaction-history"`
(undefined optional fields are dropped by JSON serialization). -/
def getTransactionHistory (tokenEnv : Option String)
    (transport : Request → HttpOutcome) (now : Nat)
    (network user : String) (contract methodId startBlock : Option (Option String))
    (includeData : Bool) : OpResult Json :=
  match tokenEnv with
  | none => missingTokenFailure
  | some token =>
    let req : Request :=
      { method := .post
        url := BASE_URL ++ "/internal/chains/" ++ network ++ "/transaction-history"
        payload := some (.obj
          ([("user", .str user)] ++ optField "contract" contract ++
           optField "methodId" methodId ++ optField "startBlock" startBlock ++
           [("includeData", .bool includeData)]))
        headers := apiHeaders token }
    (classifyOutcome (fun em => "Not Found: " ++ em)
      "Failed to get transaction history: " now (transport req), [req])

end Bankless

namespace Tokens

/-- The fixed remote base URL of `src/operations/tokens.ts`. -/
def BASE_URL : String := "https://api.bankless.com/mcp"

/-- The handler `getNativeBalance` of `src/operations/tokens.ts`: GET
`BASE_URL + "/chains/" + network + "/balance/" + address`, then convert
the response body with `BigInt(response.data.toString())`. A conversion
failure is an ordinary exception, caught by the same catch block and
re-thrown as a plain error with the handler's fallback message (it is not
an axios error, so it is never classified by status). -/
def getNativeBalance (tokenEnv : Option String)
    (transport : Request → HttpOutcome) (now : Nat)
    (network address : String) : OpResult Int :=
  match tokenEnv with
  | none => missingTokenFailure
  | some token =>
    let req : Request :=
      { method := .get
        url := BASE_URL ++ "/chains/" ++ network ++ "/balance/" ++ address
        payload := none
        headers := Bankless.apiHeaders token }
    (match transport req with
     | .success d =>
         (match jsToStringOpt d with
          | none => .error (.plain ("Failed to get native balance: " ++
              "Cannot read properties of null (reading 'toString')"))
          | some s =>
            match jsStringToBigInt s with
            | some n => .ok n
            | none => .error (.plain ("Failed to get native balance: " ++
                ("Cannot convert " ++ s ++ " to a BigInt"))))
     | .httpError s d m =>
         .error (classifyAxiosError (fun _ => "Address not found: " ++ address)
           now s d m)
     | .transportError m =>
         .error (.plain ("Bankless API Error (unknown): " ++ m))
     | .nonAxios m =>
         .error (.plain ("Failed to get native balance: " ++ m)), [req])

/-- The handler `getTokenBalancesOnNetwork` of `src/operations/tokens.ts`:
GET `BASE_URL + "/token/balance/" + address + "/" + network`. -/
def getTokenBalancesOnNetwork (tokenEnv : Option String)
    (transport : Request → HttpOutcome) (now : Nat)
    (network address : String) : OpResult Json :=
  match tokenEnv with
  | none => missingTokenFailure
  | some token =>
    let req : Request :=
      { method := .get
        url := BASE_URL ++ "/token/balance/" ++ address ++ "/" ++ network
        payload := none
        headers := Bankless.apiHeaders token }
    (classifyOutcome
      (fun _ => "Address or network not found: " ++ address ++ " on " ++ network)
      "Failed to get token balances: " now (transport req), [req])

end Tokens

/-- One element of a zod issue path: an object key or an array index. -/
inductive PathElem where
  | key (k : String)
  | idx (i : Nat)

/-- One structured zod validation issue, with the fields zod attaches to an
invalid-type issue. -/
structure ZodIssue where
  code : String
  expected : String
  received : String
  path : List PathElem
  message : String

/-- The type name zod reports for a possibly-absent parsed value. -/
def typeNameOf : Option Json → String
  | none => "undefined"
  | some .null => "null"
  | some (.bool _) => "boolean"
  | some (.num _) => "number"
  | some (.str _) => "string"
  | some (.arr _) => "array"
  | some (.obj _) => "object"

/-- The invalid-type issue zod produces when a value has the wrong type or
a required value is missing. -/
def invalidType (expected : String) (path : List PathElem) (v : Option Json) :
    ZodIssue :=
  { code := "invalid_type"
    expected := expected
    received := typeNameOf v
    path := path
    message :=
      match v with
      | none => "Required"
      | some _ => "Expected " ++ expected ++ ", received " ++ typeNameOf v }

/-- JSON encoding of a path element inside a serialized zod issue. -/
def PathElem.toJson : PathElem → Json
  | .key k => .str k
  | .idx i => .num (Int.ofNat i)

/-- JSON encoding of one zod issue, with zod's field order. -/
def ZodIssue.toJson (i : ZodIssue) : Json :=
  .obj [("code", .str i.code), ("expected", .str i.expected),
        ("received", .str i.received),
        ("path", .arr (i.path.map PathElem.toJson)),
        ("message", .str i.message)]

/-- The `error.errors` array serialized into the "Invalid input" message. -/
def zodErrorsJson (issues : List ZodIssue) : Json :=
  .arr (issues.map ZodIssue.toJson)

/-- Issue-collecting conjunction of two validations, as zod validates all
object fields and reports every issue. -/
def zBoth {α β : Type} :
    Except (List ZodIssue) α → Except (List ZodIssue) β →
    Except (List ZodIssue) (α × β)
  | .ok a, .ok b => .ok (a, b)
  | .error e, .ok _ => .error e
  | .ok _, .error e => .error e
  | .error e, .error f => .error (e ++ f)

/-- Validation of a required `z.string()` object field. -/
def zString (path : List PathElem) : Option Json → Except (List ZodIssue) String
  | some (.str s) => .ok s
  | v => .error [invalidType "string" path v]

/-- Element-wise validation of a `z.array(...)` body, extending the path
with the element index and collecting issues from every element. -/
def zItems {α : Type} (path : List PathElem)
    (elem : List PathElem → Json → Except (List ZodIssue) α) :
    Nat → List Json → Except (List ZodIssue) (List α)
  | _, [] => .ok []
  | i, x :: rest =>
      (zBoth (elem (path ++ [.idx i]) x) (zItems path elem (i + 1) rest)).map
        (fun p => p.1 :: p.2)

/-- Validation of a required `z.array(...)` object field. -/
def zArrayOf {α : Type} (path : List PathElem)
    (elem : List PathElem → Json → Except (List ZodIssue) α) :
    Option Json → Except (List ZodIssue) (List α)
  | some (.arr xs) => zItems path elem 0 xs
  | v => .error [invalidType "array" path v]

/-- A declarative view of the zod input schemas, used to advertise each
tool's contract in the catalog. -/
inductive ZSchema where
  | string
  | any
  | array (inner : ZSchema)
  | nullable (inner : ZSchema)
  | optional (inner : ZSchema)
  | object (fields : List (String × ZSchema))

/-- Whether a schema is an object schema with at least one declared field. -/
def ZSchema.isNonEmptyObject : ZSchema → Bool
  | .object (_ :: _) => true
  | _ => false

namespace Bankless

/-- The shape `InputSchema` of `src/operations/bankless.ts`: a typed value
pair for one contract-call input. -/
def InputSchema : ZSchema := .object [("type", .string), ("value", .any)]

/-- The shape `OutputSchema` of `src/operations/bankless.ts`: a single
expected output type. -/
def OutputSchema : ZSchema := .object [("type", .string)]

/-- The `ReadContractSchema` of `src/operations/bankless.ts`. -/
def ReadContractSchema : ZSchema := .object
  [("network", .string), ("contract", .string), ("method", .string),
   ("inputs", .array InputSchema), ("outputs", .array OutputSchema)]

/-- The `GetProxySchema` of `src/operations/bankless.ts`. -/
def GetProxySchema : ZSchema := .object
  [("network", .string), ("contract", .string)]

/-- The `GetEventLogsSchema` of `src/operations/bankless.ts`. -/
def GetEventLogsSchema : ZSchema := .object
  [("network", .string), ("addresses", .array .string), ("topic", .string),
   ("optionalTopics", .optional (.array (.nullable .string)))]

/-- The `BuildEventTopicSchema` of `src/operations/bankless.ts`. -/
def BuildEventTopicSchema : ZSchema := .object
  [("network", .string), ("name", .string),
   ("arguments", .array OutputSchema)]

/-- Validation of one element of `inputs` against `InputSchema`: the
`type` field must be a string, `value` accepts anything including absence.
The parsed element is rebuilt with the schema's key order, dropping
unknown keys, as zod's strip-object parsing does. -/
def parseInputElem (path : List PathElem) (j : Json) :
    Except (List ZodIssue) Json :=
  match j with
  | .obj kvs =>
      (zString (path ++ [.key "type"]) (kvs.lookup "type")).map (fun t =>
        match kvs.lookup "value" with
        | some v => Json.obj [("type", .str t), ("value", v)]
        | none => Json.obj [("type", .str t)])
  | _ => .error [invalidType "object" path (some j)]

/-- Validation of one element of `outputs` or `arguments` against
`OutputSchema`. -/
def parseOutputElem (path : List PathElem) (j : Json) :
    Except (List ZodIssue) Json :=
  match j with
  | .obj kvs =>
      (zString (path ++ [.key "type"]) (kvs.lookup "type")).map (fun t =>
        Json.obj [("type", .str t)])
  | _ => .error [invalidType "object" path (some j)]

/-- Validation of one `z.string()` array element. -/
def parseStringElem (path : List PathElem) (j : Json) :
    Except (List ZodIssue) String :=
  match j with
  | .str s => .ok s
  | _ => .error [invalidType "string" path (some j)]

/-- Validation of one `z.string().nullable()` array element. -/
def parseNullableStringElem (path : List PathElem) (j : Json) :
    Except (List ZodIssue) (Option String) :=
  match j with
  | .null => .ok none
  | .str s => .ok (some s)
  | _ => .error [invalidType "string" path (some j)]

/-- The `ReadContractSchema.parse` call of the dispatcher: validates
`{network, contract, method, inputs, outputs}`. -/
def ReadContractSchema.parse (args : Json) :
    Except (List ZodIssue) (String × String × String × List Json × List Json) :=
  match args with
  | .obj kvs =>
      zBoth (zString [.key "network"] (kvs.lookup "network"))
        (zBoth (zString [.key "contract"] (kvs.lookup "contract"))
          (zBoth (zString [.key "method"] (kvs.lookup "method"))
            (zBoth (zArrayOf [.key "inputs"] parseInputElem (kvs.lookup "inputs"))
              (zArrayOf [.key "outputs"] parseOutputElem (kvs.lookup "outputs")))))
  | j => .error [invalidType "object" [] (some j)]

/-- The `GetProxySchema.parse` call of the dispatcher. -/
def GetProxySchema.parse (args : Json) :
    Except (List ZodIssue) (String × String) :=
  match args with
  | .obj kvs =>
      zBoth (zString [.key "network"] (kvs.lookup "network"))
        (zString [.key "contract"] (kvs.lookup "contract"))
  | j => .error [invalidType "object" [] (some j)]

/-- The `GetEventLogsSchema.parse` call of the dispatcher: validates
`{network, addresses, topic, optionalTopics?}` where `optionalTopics` may
be absent. -/
def GetEventLogsSchema.parse (args : Json) :
    Except (List ZodIssue)
      (String × List String × String × Option (List (Option String))) :=
  match args with
  | .obj kvs =>
      zBoth (zString [.key "network"] (kvs.lookup "network"))
        (zBoth (zArrayOf [.key "addresses"] parseStringElem (kvs.lookup "addresses"))
          (zBoth (zString [.key "topic"] (kvs.lookup "topic"))
            (match kvs.lookup "optionalTopics" with
             | none => .ok none
             | some v =>
                 (zArrayOf [.key "optionalTopics"] parseNullableStringElem
                   (some v)).map some)))
  | j => .error [invalidType "object" [] (some j)]

/-- The `BuildEventTopicSchema.parse` call of the dispatcher: validates
`{network, name, arguments}`. -/
def BuildEventTopicSchema.parse (args : Json) :
    Except (List ZodIssue) (String × String × List Json) :=
  match args with
  | .obj kvs =>
      zBoth (zString [.key "network"] (kvs.lookup "network"))
        (zBoth (zString [.key "name"] (kvs.lookup "name"))
          (zArrayOf [.key "arguments"] parseOutputElem (kvs.lookup "arguments")))
  | j => .error [invalidType "object" [] (some j)]

end Bankless

/-- One catalog entry of the ListTools response: name, description, and
the advertised input schema. -/
structure ToolEntry where
  name : String
  description : String
  inputSchema : ZSchema

/-- The ListTools handler of `src/index.ts`: the fixed catalog of
registered tools. -/
def listTools : List ToolEntry :=
  [{ name := "read_contract"
     description := "Read contract state from a blockchain"
     inputSchema := Bankless.ReadContractSchema },
   { name := "get_proxy"
     description := "Gets the proxy address for a given network and contract"
     inputSchema := Bankless.GetProxySchema },
   { name := "get_events"
     description := "Fetches event logs for a given network and filter criteria"
     inputSchema := Bankless.GetEventLogsSchema },
   { name := "build_event_topic"
     description := "Builds an event topic signature based on event name and arguments"
     inputSchema := Bankless.BuildEventTopicSchema }]

/-- The `formatBanklessError` function of `src/index.ts`. The source
initializes the message to the base-class rendering and then overrides it
per subclass; since the taxonomy is closed, every kind is overridden, so
the base-class line is unreachable and the function is the match below.
The validation detail line is appended only when the stored response is
truthy, and the rate-limit line renders the reset time with
`toISOString`. -/
def formatBanklessError : DomainError → String
  | .validation msg response =>
      "Validation Error: " ++ msg ++
        (match response with
         | some d =>
             if jsTruthy d then "\nDetails: " ++ Json.stringify d else ""
         | none => "")
  | .resourceNotFound msg => "Not Found: " ++ msg
  | .authentication msg => "Authentication Failed: " ++ msg
  | .rateLimit msg resetAt =>
      "Rate Limit Exceeded: " ++ msg ++ "\nResets at: " ++ toISOString resetAt

/-- The success wrapping of the dispatcher: one text content block holding
`JSON.stringify(result, null, 2)`. -/
def wrapToolResult (result : Json) : Json :=
  .obj [("content", .arr
    [.obj [("type", .str "text"), ("text", .str (Json.renderIndent2 result))]])]

/-- The catch block of the CallTool handler applied to one handler run: a
success is wrapped as serialized text; a thrown Domain Error is re-thrown
as a plain error with the formatted message; any other failure is
re-thrown unchanged. -/
def toToolResponse : OpResult Json → OpResult Json
  | (.ok v, log) => (.ok (wrapToolResult v), log)
  | (.error (.domain e), log) => (.error (.plain (formatBanklessError e)), log)
  | (.error (.plain m), log) => (.error (.plain m), log)

/-- The CallTool handler of `src/index.ts`: reject absent arguments, route
by tool name (unknown names are rejected), validate the arguments against
the tool's schema (a zod failure becomes the "Invalid input" message
carrying the serialized issue list), then run the handler and wrap or
format its outcome. -/
def handleCallTool (tokenEnv : Option String)
    (transport : Request → HttpOutcome) (now : Nat)
    (name : String) (arguments? : Option Json) : OpResult Json :=
  match arguments? with
  | none => (.error (.plain "Arguments are required"), [])
  | some args =>
    if name = "read_contract" then
      match Bankless.ReadContractSchema.parse args with
      | .error issues =>
          (.error (.plain ("Invalid input: " ++
            Json.stringify (zodErrorsJson issues))), [])
      | .ok (network, contract, method, inputs, outputs) =>
          toToolResponse (Bankless.readContractState tokenEnv transport now
            network contract method inputs outputs)
    else if name = "get_proxy" then
      match Bankless.GetProxySchema.parse args with
      | .error issues =>
          (.error (.plain ("Invalid input: " ++
            Json.stringify (zodErrorsJson issues))), [])
      | .ok (network, contract) =>
          toToolResponse (Bankless.getProxy tokenEnv transport now network contract)
    else if name = "get_events" then
      match Bankless.GetEventLogsSchema.parse args with
      | .error issues =>
          (.error (.plain ("Invalid input: " ++
            Json.stringify (zodErrorsJson issues))), [])
      | .ok (network, addresses, topic, optionalTopics) =>
          toToolResponse (Bankless.getEvents tokenEnv transport now network
            addresses topic optionalTopics)
    else if name = "build_event_topic" then
      match Bankless.BuildEventTopicSchema.parse args with
      | .error issues =>
          (.error (.plain ("Invalid input: " ++
            Json.stringify (zodErrorsJson issues))), [])
      | .ok (network, name_, arguments_) =>
          toToolResponse (Bankless.buildEventTopic tokenEnv transport now
            network name_ arguments_)
    else
      (.error (.plain ("Unknown tool: " ++ name)), [])

theorem toNat_bounds_of_isDigit {c : Char} (h : c.isDigit = true) :
    48 ≤ c.toNat ∧ c.toNat ≤ 57 := by
  simp only [Char.isDigit, Bool.and_eq_true, decide_eq_true_eq, ge_iff_le] at h
  exact ⟨UInt32.le_toNat_of_le (by norm_num) h.1,
    UInt32.toNat_le_of_le (by norm_num) h.2⟩

theorem isWhitespace_eq_false_of_isDigit {c : Char} (h : c.isDigit = true) :
    c.isWhitespace = false := by
  obtain ⟨h1, h2⟩ := toNat_bounds_of_isDigit h
  cases hw : c.isWhitespace with
  | false => rfl
  | true =>
      simp only [Char.isWhitespace, Bool.or_eq_true, decide_eq_true_eq] at hw
      rcases hw with ((hw | hw) | hw) | hw <;>
        (subst hw; revert h1 h2; decide)

theorem dropWhile_whitespace_of_digits {l : List Char} (h : l.all Char.isDigit = true)
    (hne : l ≠ []) : l.dropWhile Char.isWhitespace = l := by
  cases l with
  | nil => exact absurd rfl hne
  | cons c t =>
      rw [List.dropWhile_cons,
        isWhitespace_eq_false_of_isDigit (List.all_eq_true.mp h c (by simp))]
      simp

theorem classifyAxiosError_429 (nf : String → String) (now : Nat) (d : Json)
    (m : String) :
    classifyAxiosError nf now 429 d m =
      .domain (.rateLimit ("Rate Limit Exceeded: " ++ errorMessageOf d m)
        (now + 60000)) := by
  simp [classifyAxiosError]

/-- C2: for every operation, an absent Auth Token makes the handler fail
immediately with the Authentication Domain Error, with an empty request
log (so the failure precedes any HTTP request). -/
theorem missing_token_authentication_no_requests :
    (∀ (transport : Request → HttpOutcome) (now : Nat)
       (network contract method : String) (inputs outputs : List Json),
       Bankless.readContractState none transport now network contract method
         inputs outputs =
       (.error (.domain (.authentication
         "BANKLESS_API_TOKEN environment variable is not set")), [])) ∧
    (∀ transport now network contract,
       Bankless.getProxy none transport now network contract =
       (.error (.domain (.authentication
         "BANKLESS_API_TOKEN environment variable is not set")), [])) ∧
    (∀ transport now network addresses topic optionalTopics,
       Bankless.getEvents none transport now network addresses topic
         optionalTopics =
       (.error (.domain (.authentication
         "BANKLESS_API_TOKEN environment variable is not set")), [])) ∧
    (∀ transport now network name arguments_,
       Bankless.buildEventTopic none transport now network name arguments_ =
       (.error (.domain (.authentication
         "BANKLESS_API_TOKEN environment variable is not set")), [])) ∧
    (∀ transport now network contract,
       Bankless.getAbi none transport now network contract =
       (.error (.domain (.authentication
         "BANKLESS_API_TOKEN environment variable is not set")), [])) ∧
    (∀ transport now network contract,
       Bankless.getSource none transport now network contract =
       (.error (.domain (.authentication
         "BANKLESS_API_TOKEN environment variable is not set")), [])) ∧
    (∀ transport now network user contract methodId startBlock includeData,
       Bankless.getTransactionHistory none transport now network user contract
         methodId startBlock includeData =
       (.error (.domain (.authentication
         "BANKLESS_API_TOKEN environment variable is not set")), [])) ∧
    (∀ transport now network address,
       Tokens.getNativeBalance none transport now network address =
       (.error (.domain (.authentication
         "BANKLESS_API_TOKEN environment variable is not set")), [])) ∧
    (∀ transport now network address,
       Tokens.getTokenBalancesOnNetwork none transport now network address =
       (.error (.domain (.authentication
         "BANKLESS_API_TOKEN environment variable is not set")), [])) := by
  refine ⟨?_, ?_, ?_, ?_, ?_, ?_, ?_, ?_, ?_⟩ <;> (intros; rfl)

/-- C5 counterexample: the catalog advertised by the ListTools handler has
four entries, not nine. -/
theorem catalog_size_counterexample : listTools.length = 4 ∧ listTools.length ≠ 9 := by
  exact ⟨rfl, by decide⟩

/-- C5 amended: listing operations returns exactly the fixed catalog of
four operations (read_contract, get_proxy, get_events, build_event_topic),
each with a non-empty name, description and input schema, and every
registered operation appears exactly once. -/
theorem catalog_exactly_four_tools :
    listTools.map ToolEntry.name =
      ["read_contract", "get_proxy", "get_events", "build_event_topic"] ∧
    (listTools.map ToolEntry.name).Nodup ∧
    listTools.all (fun t => t.name != "" && t.description != "" &&
      t.inputSchema.isNonEmptyObject) = true := by
  refine ⟨rfl, by decide, rfl⟩

/-- C6: for every operation, an upstream 429 yields the RateLimit Domain
Error whose reset timestamp is exactly 60 seconds (60000 ms) after the
failure time, hence within the interval from now to now plus 60 seconds. -/
theorem rate_limit_reset_sixty_seconds :
    ∀ (token : String) (now : Nat) (d : Json) (m : String),
    (∀ network contract method inputs outputs,
      (Bankless.readContractState (some token)
        (constTransport (.httpError 429 d m)) now network contract method
        inputs outputs).1 =
      .error (.domain (.rateLimit ("Rate Limit Exceeded: " ++ errorMessageOf d m)
        (now + 60000)))) ∧
    (∀ network contract,
      (Bankless.getProxy (some token) (constTransport (.httpError 429 d m)) now
        network contract).1 =
      .error (.domain (.rateLimit ("Rate Limit Exceeded: " ++ errorMessageOf d m)
        (now + 60000)))) ∧
    (∀ network addresses topic optionalTopics,
      (Bankless.getEvents (some token) (constTransport (.httpError 429 d m)) now
        network addresses topic optionalTopics).1 =
      .error (.domain (.rateLimit ("Rate Limit Exceeded: " ++ errorMessageOf d m)
        (now + 60000)))) ∧
    (∀ network name arguments_,
      (Bankless.buildEventTopic (some token) (constTransport (.httpError 429 d m))
        now network name arguments_).1 =
      .error (.domain (.rateLimit ("Rate Limit Exceeded: " ++ errorMessageOf d m)
        (now + 60000)))) ∧
    (∀ network contract,
      (Bankless.getAbi (some token) (constTransport (.httpError 429 d m)) now
        network contract).1 =
      .error (.domain (.rateLimit ("Rate Limit Exceeded: " ++ errorMessageOf d m)
        (now + 60000)))) ∧
    (∀ network contract,
      (Bankless.getSource (some token) (constTransport (.httpError 429 d m)) now
        network contract).1 =
      .error (.domain (.rateLimit ("Rate Limit Exceeded: " ++ errorMessageOf d m)
        (now + 60000)))) ∧
    (∀ network user contract methodId startBlock includeData,
      (Bankless.getTransactionHistory (some token)
        (constTransport (.httpError 429 d m)) now network user contract methodId
        startBlock includeData).1 =
      .error (.domain (.rateLimit ("Rate Limit Exceeded: " ++ errorMessageOf d m)
        (now + 60000)))) ∧
    (∀ network address,
      (Tokens.getNativeBalance (some token) (constTransport (.httpError 429 d m))
        now network address).1 =
      .error (.domain (.rateLimit ("Rate Limit Exceeded: " ++ errorMessageOf d m)
        (now + 60000)))) ∧
    (∀ network address,
      (Tokens.getTokenBalancesOnNetwork (some token)
        (constTransport (.httpError 429 d m)) now network address).1 =
      .error (.domain (.rateLimit ("Rate Limit Exceeded: " ++ errorMessageOf d m)
        (now + 60000)))) ∧
    now ≤ now + 60000 ∧ now + 60000 ≤ now + 60000 := by
  intro token now d m
  refine ⟨?_, ?_, ?_, ?_, ?_, ?_, ?_, ?_, ?_, by omega, by omega⟩ <;>
    (intros
     simp only [Bankless.readContractState, Bankless.getProxy, Bankless.getEvents,
       Bankless.buildEventTopic, Bankless.getAbi, Bankless.getSource,
       Bankless.getTransactionHistory, Tokens.getNativeBalance,
       Tokens.getTokenBalancesOnNetwork, constTransport, classifyOutcome]
     rw [classifyAxiosError_429])

/-- C8 counterexample: at a concrete invocation, the single POST issued by
`readContractState` goes to the base URL joined with
`/internal/chains/ethereum/contract/read` (with a doubled slash from the
join), which differs from the base URL joined with
`/chains/ethereum/contract/read` as the claim states. -/
theorem read_contract_path_counterexample :
    ((Bankless.readContractState (some "tok") (constTransport (.success .null)) 0
        "ethereum" "0xc0ffee" "balanceOf" [] []).2.map Request.url =
      ["https://api.bankless.com//internal/chains/ethereum/contract/read"]) ∧
    "https://api.bankless.com//internal/chains/ethereum/contract/read" ≠
      Bankless.BASE_URL ++ "/chains/ethereum/contract/read" := by
  exact ⟨rfl, by decide⟩

/-- C8 amended: every read-contract-state invocation with a configured
token issues exactly one POST to the base URL joined with
`/internal/chains/{network}/contract/read` (the join doubling the slash),
with payload exactly `{contract, method, inputs, outputs}`; the HTTP
methods of all nine operations are as the spec table states, and the
paths likewise except that the seven chain operations insert `/internal`
after the base URL (the two token operations use the `/mcp` base with
paths exactly as the table). -/
theorem operation_methods_and_paths :
    (∀ (token : String) (transport : Request → HttpOutcome) (now : Nat)
       (network contract method : String) (inputs outputs : List Json),
      (Bankless.readContractState (some token) transport now network contract
        method inputs outputs).2 =
      [{ method := .post
         url := Bankless.BASE_URL ++ "/internal/chains/" ++ network ++
           "/contract/read"
         payload := some (.obj
           [("contract", .str contract), ("method", .str method),
            ("inputs", .arr inputs), ("outputs", .arr outputs)])
         headers := Bankless.apiHeaders token }]) ∧
    (∀ (token : String) transport now network contract,
      (Bankless.getProxy (some token) transport now network contract).2 =
      [{ method := .get
         url := Bankless.BASE_URL ++ "/internal/chains/" ++ network ++
           "/contract/" ++ contract ++ "/find-proxy"
         payload := none
         headers := Bankless.apiHeaders token }]) ∧
    (∀ (token : String) transport now network addresses topic optionalTopics,
      (Bankless.getEvents (some token) transport now network addresses topic
        optionalTopics).2.map (fun r => (r.method, r.url)) =
      [(HttpMethod.post,
        Bankless.BASE_URL ++ "/internal/chains/" ++ network ++ "/events/logs")]) ∧
    (∀ (token : String) transport now network name arguments_,
      (Bankless.buildEventTopic (some token) transport now network name
        arguments_).2 =
      [{ method := .post
         url := Bankless.BASE_URL ++ "/internal/chains/" ++ network ++
           "/contract/build-event-topic"
         payload := some (.obj
           [("name", .str name), ("arguments", .arr arguments_)])
         headers := Bankless.apiHeaders token }]) ∧
    (∀ (token : String) transport now network contract,
      (Bankless.getAbi (some token) transport now network contract).2 =
      [{ method := .get
         url := Bankless.BASE_URL ++ "/internal/chains/" ++ network ++
           "/get_abi/" ++ contract
         payload := none
         headers := Bankless.apiHeaders token }]) ∧
    (∀ (token : String) transport now network contract,
      (Bankless.getSource (some token) transport now network contract).2 =
      [{ method := .get
         url := Bankless.BASE_URL ++ "/internal/chains/" ++ network ++
           "/get_source/" ++ contract
         payload := none
         headers := Bankless.apiHeaders token }]) ∧
    (∀ (token : String) transport now network user contract methodId startBlock
       includeData,
      (Bankless.getTransactionHistory (some token) transport now network user
        contract methodId startBlock includeData).2.map
          (fun r => (r.method, r.url)) =
      [(HttpMethod.post,
        Bankless.BASE_URL ++ "/internal/chains/" ++ network ++
          "/transaction-history")]) ∧
    (∀ (token : String) transport now network address,
      (Tokens.getNativeBalance (some token) transport now network address).2 =
      [{ method := .get
         url := Tokens.BASE_URL ++ "/chains/" ++ network ++ "/balance/" ++ address
         payload := none
         headers := Bankless.apiHeaders token }]) ∧
    (∀ (token : String) transport now network address,
      (Tokens.getTokenBalancesOnNetwork (some token) transport now network
        address).2 =
      [{ method := .get
         url := Tokens.BASE_URL ++ "/token/balance/" ++ address ++ "/" ++ network
         payload := none
         headers := Bankless.apiHeaders token }]) := by
  refine ⟨?_, ?_, ?_, ?_, ?_, ?_, ?_, ?_, ?_⟩ <;> (intros; rfl)

/-- C9: a get_events invocation without optionalTopics serializes the
field as the empty array, the payload consisting of exactly the fields
addresses, topic and optionalTopics, and the whole invocation is
indistinguishable from one with an explicitly empty optionalTopics. -/
theorem get_events_optional_topics_default :
    ∀ (token : String) (transport : Request → HttpOutcome) (now : Nat)
      (network : String) (addresses : List String) (topic : String),
    ((Bankless.getEvents (some token) transport now network addresses topic
        none).2.map Request.payload =
      [some (.obj
        [("addresses", .arr (addresses.map Json.str)), ("topic", .str topic),
         ("optionalTopics", .arr [])])]) ∧
    Bankless.getEvents (some token) transport now network addresses topic none =
      Bankless.getEvents (some token) transport now network addresses topic
        (some []) := by
  intros
  exact ⟨rfl, rfl⟩

/-- C1: every operation classifies an HTTP failure by status in priority
order — 401/403 to Authentication, 404 to ResourceNotFound, 422 to
Validation with the response body as detail, 429 to RateLimit, and any
other status (or a transport failure with no response) to a plain generic
failure whose message carries the status code when known; each of the
nine handlers surfaces its failures through exactly this classification. -/
theorem http_failure_classification :
    (∀ (nf : String → String) (fb : String) (now s : Nat) (d : Json) (m : String),
      ((s = 401 ∨ s = 403) → classifyOutcome nf fb now (.httpError s d m) =
        .error (.domain (.authentication
          ("Authentication Failed: " ++ errorMessageOf d m)))) ∧
      (s = 404 → classifyOutcome nf fb now (.httpError s d m) =
        .error (.domain (.resourceNotFound (nf (errorMessageOf d m))))) ∧
      (s = 422 → classifyOutcome nf fb now (.httpError s d m) =
        .error (.domain (.validation
          ("Validation Error: " ++ errorMessageOf d m) (some d)))) ∧
      (s = 429 → classifyOutcome nf fb now (.httpError s d m) =
        .error (.domain (.rateLimit
          ("Rate Limit Exceeded: " ++ errorMessageOf d m) (now + 60000)))) ∧
      (s ≠ 401 → s ≠ 403 → s ≠ 404 → s ≠ 422 → s ≠ 429 →
        classifyOutcome nf fb now (.httpError s d m) =
        .error (.plain ("Bankless API Error (" ++ statusCodeStr s ++ "): " ++
          errorMessageOf d m))) ∧
      (classifyOutcome nf fb now (.transportError m) =
        .error (.plain ("Bankless API Error (unknown): " ++ m)))) ∧
    (∀ (token : String) (now : Nat) (network contract method : String)
       (inputs outputs : List Json) (o : HttpOutcome),
      (Bankless.readContractState (some token) (constTransport o) now network
        contract method inputs outputs).1 =
      classifyOutcome (fun em => "Not Found: " ++ em)
        "Failed to read contract state: " now o) ∧
    (∀ (token : String) now network contract (o : HttpOutcome),
      (Bankless.getProxy (some token) (constTransport o) now network contract).1 =
      classifyOutcome (fun em => "Not Found: " ++ em)
        "Failed to get proxy information: " now o) ∧
    (∀ (token : String) now network addresses topic optionalTopics
       (o : HttpOutcome),
      (Bankless.getEvents (some token) (constTransport o) now network addresses
        topic optionalTopics).1 =
      classifyOutcome (fun em => "Not Found: " ++ em)
        "Failed to fetch event logs: " now o) ∧
    (∀ (token : String) now network name arguments_ (o : HttpOutcome),
      (Bankless.buildEventTopic (some token) (constTransport o) now network name
        arguments_).1 =
      classifyOutcome (fun em => "Not Found: " ++ em)
        "Failed to build event topic: " now o) ∧
    (∀ (token : String) now network contract (o : HttpOutcome),
      (Bankless.getAbi (some token) (constTransport o) now network contract).1 =
      classifyOutcome (fun em => "Not Found: " ++ em)
        "Failed to get contract ABI: " now o) ∧
    (∀ (token : String) now network contract (o : HttpOutcome),
      (Bankless.getSource (some token) (constTransport o) now network contract).1 =
      classifyOutcome (fun em => "Not Found: " ++ em)
        "Failed to get contract source: " now o) ∧
    (∀ (token : String) now network user contract methodId startBlock includeData
       (o : HttpOutcome),
      (Bankless.getTransactionHistory (some token) (constTransport o) now network
        user contract methodId startBlock includeData).1 =
      classifyOutcome (fun em => "Not Found: " ++ em)
        "Failed to get transaction history: " now o) ∧
    (∀ (token : String) now network address (o : HttpOutcome),
      (Tokens.getTokenBalancesOnNetwork (some token) (constTransport o) now
        network address).1 =
      classifyOutcome
        (fun _ => "Address or network not found: " ++ address ++ " on " ++ network)
        "Failed to get token balances: " now o) ∧
    (∀ (token : String) (now s : Nat) (network address : String) (d : Json)
       (m : String),
      (Tokens.getNativeBalance (some token)
        (constTransport (.httpError s d m)) now network address).1 =
      .error (classifyAxiosError (fun _ => "Address not found: " ++ address)
        now s d m)) ∧
    (∀ (token : String) (now : Nat) (network address m : String),
      (Tokens.getNativeBalance (some token) (constTransport (.transportError m))
        now network address).1 =
      .error (.plain ("Bankless API Error (unknown): " ++ m))) := by
  refine ⟨?_, ?_, ?_, ?_, ?_, ?_, ?_, ?_, ?_, ?_, ?_⟩
  · intro nf fb now s d m
    refine ⟨?_, ?_, ?_, ?_, ?_, rfl⟩
    · rintro (rfl | rfl) <;> simp [classifyOutcome, classifyAxiosError]
    · rintro rfl; simp [classifyOutcome, classifyAxiosError]
    · rintro rfl; simp [classifyOutcome, classifyAxiosError]
    · rintro rfl; simp [classifyOutcome, classifyAxiosError]
    · intro h1 h2 h3 h4 h5
      simp [classifyOutcome, classifyAxiosError, h1, h2, h3, h4, h5]
  all_goals (intros; rfl)

/-- C1 witness: a concrete 404 response on the read-contract classifier
yields the ResourceNotFound Domain Error. -/
theorem http_failure_classification_witness :
    classifyOutcome (fun em => "Not Found: " ++ em)
      "Failed to read contract state: " 0
      (.httpError 404 (Json.obj []) "gone") =
    .error (.domain (.resourceNotFound
      ("Not Found: " ++ errorMessageOf (Json.obj []) "gone"))) :=
  ((http_failure_classification.1 (fun em => "Not Found: " ++ em)
    "Failed to read contract state: " 0 404 (Json.obj []) "gone").2.1) rfl

/-- C4: the dispatcher renders every Domain Error into a single string
that includes the kind label and the message, with RateLimit additionally
rendering the reset time in the fixed ISO timestamp format and Validation
additionally rendering the structured detail when a truthy detail is
present; a thrown Domain Error reaches the caller as exactly this
formatted string, and a non-domain failure propagates with its original
message unchanged. -/
theorem domain_error_rendering :
    (∀ m, formatBanklessError (.authentication m) =
      "Authentication Failed: " ++ m) ∧
    (∀ m, formatBanklessError (.resourceNotFound m) = "Not Found: " ++ m) ∧
    (∀ m t, formatBanklessError (.rateLimit m t) =
      "Rate Limit Exceeded: " ++ m ++ "\nResets at: " ++ toISOString t) ∧
    (∀ m d, jsTruthy d = true → formatBanklessError (.validation m (some d)) =
      "Validation Error: " ++ m ++ ("\nDetails: " ++ Json.stringify d)) ∧
    (∀ m d, jsTruthy d = false → formatBanklessError (.validation m (some d)) =
      "Validation Error: " ++ m) ∧
    (∀ m, formatBanklessError (.validation m none) = "Validation Error: " ++ m) ∧
    (∀ e log, toToolResponse (.error (.domain e), log) =
      (.error (.plain (formatBanklessError e)), log)) ∧
    (∀ m log, toToolResponse (.error (.plain m), log) =
      (.error (.plain m), log)) := by
  refine ⟨fun m => rfl, fun m => rfl, fun m t => rfl, ?_, ?_, ?_, fun e log => rfl,
    fun m log => rfl⟩
  · intro m d h; simp [formatBanklessError, h]
  · intro m d h; simp [formatBanklessError, h]
  · intro m; simp [formatBanklessError]

/-- C4 witness: a concrete Validation error with a truthy structured
detail renders the kind label, the message and the serialized detail. -/
theorem domain_error_rendering_witness :
    jsTruthy (Json.obj [("field", Json.str "x")]) = true ∧
    formatBanklessError (.validation "bad"
      (some (Json.obj [("field", Json.str "x")]))) =
    "Validation Error: " ++ "bad" ++
      ("\nDetails: " ++ Json.stringify (Json.obj [("field", Json.str "x")])) :=
  ⟨rfl, domain_error_rendering.2.2.2.1 "bad" (Json.obj [("field", Json.str "x")]) rfl⟩

/-- C3: the dispatcher rejects absent arguments with the plain
"Arguments are required" failure (not a Domain Error), rejects unknown
tool names with the plain "Unknown tool" failure, and turns a schema
validation failure into the distinct "Invalid input" failure carrying the
serialized structured issue list — all three with an empty request log. -/
theorem dispatcher_local_rejections :
    (∀ (tokenEnv : Option String) (transport : Request → HttpOutcome)
       (now : Nat) (name : String),
      handleCallTool tokenEnv transport now name none =
        (.error (.plain "Arguments are required"), []) ∧
      isBanklessError (.plain "Arguments are required") = false) ∧
    (∀ (tokenEnv : Option String) (transport : Request → HttpOutcome)
       (now : Nat) (name : String) (args : Json),
      name ≠ "read_contract" → name ≠ "get_proxy" → name ≠ "get_events" →
      name ≠ "build_event_topic" →
      handleCallTool tokenEnv transport now name (some args) =
        (.error (.plain ("Unknown tool: " ++ name)), []) ∧
      isBanklessError (.plain ("Unknown tool: " ++ name)) = false) ∧
    (∀ (tokenEnv : Option String) (transport : Request → HttpOutcome)
       (now : Nat) (args : Json) (issues : List ZodIssue),
      Bankless.ReadContractSchema.parse args = .error issues →
      handleCallTool tokenEnv transport now "read_contract" (some args) =
        (.error (.plain ("Invalid input: " ++
          Json.stringify (zodErrorsJson issues))), [])) ∧
    (∀ (tokenEnv : Option String) (transport : Request → HttpOutcome)
       (now : Nat) (args : Json) (issues : List ZodIssue),
      Bankless.GetProxySchema.parse args = .error issues →
      handleCallTool tokenEnv transport now "get_proxy" (some args) =
        (.error (.plain ("Invalid input: " ++
          Json.stringify (zodErrorsJson issues))), [])) ∧
    (∀ (tokenEnv : Option String) (transport : Request → HttpOutcome)
       (now : Nat) (args : Json) (issues : List ZodIssue),
      Bankless.GetEventLogsSchema.parse args = .error issues →
      handleCallTool tokenEnv transport now "get_events" (some args) =
        (.error (.plain ("Invalid input: " ++
          Json.stringify (zodErrorsJson issues))), [])) ∧
    (∀ (tokenEnv : Option String) (transport : Request → HttpOutcome)
       (now : Nat) (args : Json) (issues : List ZodIssue),
      Bankless.BuildEventTopicSchema.parse args = .error issues →
      handleCallTool tokenEnv transport now "build_event_topic" (some args) =
        (.error (.plain ("Invalid input: " ++
          Json.stringify (zodErrorsJson issues))), [])) := by
  refine ⟨?_, ?_, ?_, ?_, ?_, ?_⟩
  · intro tokenEnv transport now name
    exact ⟨rfl, rfl⟩
  · intro tokenEnv transport now name args h1 h2 h3 h4
    refine ⟨?_, rfl⟩
    simp [handleCallTool, h1, h2, h3, h4]
  · intro tokenEnv transport now args issues h
    simp [handleCallTool, h]
  · intro tokenEnv transport now args issues h
    simp [handleCallTool, h]
  · intro tokenEnv transport now args issues h
    simp [handleCallTool, h]
  · intro tokenEnv transport now args issues h
    simp [handleCallTool, h]

/-- C3 witness: the unknown tool name "nope" at a concrete invocation is
rejected with the plain Unknown tool failure and an empty request log. -/
theorem dispatcher_local_rejections_witness :
    handleCallTool none (constTransport (.success .null)) 0 "nope"
      (some .null) = (.error (.plain ("Unknown tool: " ++ "nope")), []) ∧
    isBanklessError (.plain ("Unknown tool: " ++ "nope")) = false :=
  dispatcher_local_rejections.2.1 none (constTransport (.success .null)) 0
    "nope" .null (by decide) (by decide) (by decide) (by decide)

theorem radixDigitVal_of_isDigit {c : Char} (h : c.isDigit = true) :
    radixDigitVal 10 c = some (c.toNat - 48) := by
  obtain ⟨h1, h2⟩ := toNat_bounds_of_isDigit h
  simp only [radixDigitVal, h, if_true]
  rw [if_pos (by omega : c.toNat - 48 < 10)]

theorem parseRadix_foldl_digits (t : List Char) (a : Nat)
    (h : t.all Char.isDigit = true) :
    t.foldl
      (fun acc c =>
        match acc, radixDigitVal 10 c with
        | some n, some d => some (10 * n + d)
        | _, _ => none)
      (some a) =
    some (a * 10 ^ t.length +
      Nat.ofDigits 10 ((t.map (fun c => c.toNat - 48)).reverse)) := by
  induction t generalizing a with
  | nil => simp
  | cons c t ih =>
      have hc : c.isDigit = true := List.all_eq_true.mp h c (by simp)
      have ht : t.all Char.isDigit = true := by
        rw [List.all_eq_true] at h ⊢
        exact fun x hx => h x (by simp [hx])
      simp only [List.foldl_cons, radixDigitVal_of_isDigit hc]
      rw [ih (10 * a + (c.toNat - 48)) ht]
      simp only [Option.some.injEq, List.map_cons, List.reverse_cons,
        Nat.ofDigits_append, Nat.ofDigits_singleton, List.length_cons,
        List.length_reverse, List.length_map]
      ring

theorem parseRadix_digits (l : List Char) (hne : l ≠ [])
    (h : l.all Char.isDigit = true) :
    parseRadix 10 l =
      some (Nat.ofDigits 10 ((l.map (fun c => c.toNat - 48)).reverse)) := by
  unfold parseRadix
  rw [if_neg (by simpa using hne)]
  rw [parseRadix_foldl_digits l 0 h]
  simp

theorem jsStringToBigInt_digits (s : String) (hne : s.toList ≠ [])
    (hd : s.toList.all Char.isDigit = true) :
    jsStringToBigInt s =
      some (Int.ofNat (Nat.ofDigits 10
        ((s.toList.map (fun c => c.toNat - 48)).reverse))) := by
  have h1 : s.toList.dropWhile Char.isWhitespace = s.toList :=
    dropWhile_whitespace_of_digits hd hne
  have hrevd : s.toList.reverse.all Char.isDigit = true := by
    rw [List.all_eq_true] at hd ⊢
    intro x hx
    exact hd x (List.mem_reverse.mp hx)
  have hrevne : s.toList.reverse ≠ [] := by
    simpa using hne
  have h2 : s.toList.reverse.dropWhile Char.isWhitespace = s.toList.reverse :=
    dropWhile_whitespace_of_digits hrevd hrevne
  simp only [jsStringToBigInt]
  rw [h1, h2, List.reverse_reverse]
  split
  · next heq => exact absurd heq hne
  · next x rest heq =>
      rw [heq] at hd
      simp only [List.all_cons, Bool.and_eq_true] at hd
      obtain ⟨h0, hx, hrest⟩ := hd
      have hbx := toNat_bounds_of_isDigit hx
      rw [if_neg (by rintro (rfl | rfl) <;> exact absurd hbx.2 (by decide)),
        if_neg (by rintro (rfl | rfl) <;> exact absurd hbx.2 (by decide)),
        if_neg (by rintro (rfl | rfl) <;> exact absurd hbx.2 (by decide))]
      rw [heq]
      rw [parseRadix_digits ('0' :: x :: rest) (by simp)
        (by simp [List.all_cons, h0, hx, hrest])]
      rfl
  · next rest heq =>
      rw [heq] at hd
      simp only [List.all_cons, Bool.and_eq_true] at hd
      exact absurd hd.1 (by decide)
  · next rest heq =>
      rw [heq] at hd
      simp only [List.all_cons, Bool.and_eq_true] at hd
      exact absurd hd.1 (by decide)
  · rw [parseRadix_digits s.toList hne hd]
    rfl

/-- C7: a successful get_native_balance whose response body is a decimal
digit string of any length returns exactly the unbounded integer the
digits denote (`Nat.ofDigits` in base ten), with no precision loss. -/
theorem native_balance_exact_conversion (token network address : String)
    (now : Nat) (s : String) (hne : s.toList ≠ [])
    (hd : s.toList.all Char.isDigit = true) :
    (Tokens.getNativeBalance (some token) (constTransport (.success (.str s)))
      now network address).1 =
    .ok (Int.ofNat (Nat.ofDigits 10
      ((s.toList.map (fun c => c.toNat - 48)).reverse))) := by
  have hb := jsStringToBigInt_digits s hne hd
  simp [Tokens.getNativeBalance, constTransport, jsToStringOpt,
    jsTemplateString, hb]

set_option maxRecDepth 4000 in
/-- C7 witness: a 78-digit response body converts to the exact 78-digit
integer. -/
theorem native_balance_exact_conversion_witness :
    (Tokens.getNativeBalance (some "tok")
      (constTransport (.success (.str
        "123456789012345678901234567890123456789012345678901234567890123456789012345678")))
      0 "ethereum" "0xabc").1 =
    .ok (Int.ofNat
      123456789012345678901234567890123456789012345678901234567890123456789012345678) :=
  (native_balance_exact_conversion "tok" "ethereum" "0xabc" 0
    "123456789012345678901234567890123456789012345678901234567890123456789012345678"
    (by decide) (by decide)).trans
    (congrArg Except.ok (congrArg Int.ofNat (by decide)))

/-- C10: a successful (2xx) get_native_balance whose response body does
not stringify to a valid integer literal throws the unclassified plain
failure from the conversion — never a value and never a Domain Error. -/
theorem native_balance_malformed_body (token network address : String)
    (now : Nat) (d : Json) (h : bigIntOfData d = none) :
    (∃ m, (Tokens.getNativeBalance (some token) (constTransport (.success d))
      now network address).1 =
      .error (.plain ("Failed to get native balance: " ++ m))) ∧
    (∀ e : DomainError,
      (Tokens.getNativeBalance (some token) (constTransport (.success d))
        now network address).1 ≠ .error (.domain e)) ∧
    (∀ v : Int,
      (Tokens.getNativeBalance (some token) (constTransport (.success d))
        now network address).1 ≠ .ok v) := by
  unfold bigIntOfData at h
  cases h1 : jsToStringOpt d with
  | none =>
      refine ⟨⟨"Cannot read properties of null (reading 'toString')", ?_⟩, ?_, ?_⟩ <;>
        simp [Tokens.getNativeBalance, constTransport, h1]
  | some s =>
      rw [h1] at h
      simp only [Option.some_bind] at h
      refine ⟨⟨"Cannot convert " ++ s ++ " to a BigInt", ?_⟩, ?_, ?_⟩ <;>
        simp [Tokens.getNativeBalance, constTransport, h1, h]

/-- C10 witness: a JSON object body stringifies to "[object Object]",
which is not an integer literal, and the handler fails with the plain
conversion failure. -/
theorem native_balance_malformed_body_witness :
    bigIntOfData (Json.obj []) = none ∧
    ∃ m, (Tokens.getNativeBalance (some "tok")
      (constTransport (.success (Json.obj []))) 0 "ethereum" "0xabc").1 =
      .error (.plain ("Failed to get native balance: " ++ m)) :=
  ⟨by decide, (native_balance_malformed_body "tok" "ethereum" "0xabc" 0
    (Json.obj []) (by decide)).1⟩
